import Mathlib

/-!
Verification of `src/main.cpp` of the learnOpenGL repository.

The program is a linear OpenGL "two triangles" demo: GLFW initialization,
window creation, GLAD function loading, compiling and linking a vertex and a
fragment shader, uploading two vertex buffers, a render loop that draws the
two triangles until the window's should-close flag is set, and teardown.

We give a shallow embedding: every GLFW/GL call made by the program becomes a
constructor of `GLCall`, outcomes of the external libraries (window creation
success, GLAD success, shader-compile and link status flags, per-iteration
keyboard state and window events) are collected in an `Env` oracle, and
`mainRun` mirrors the body of `main` line by line, producing the trace of
calls together with the process exit code (`none` when the render loop has
not terminated within the given fuel, modelling nontermination).
-/

/-! ## Constants of the source file -/

/-- window width (`SCR_WIDTH`, main.cpp line 13). -/
def SCR_WIDTH : Nat := 800

/-- window height (`SCR_HEIGHT`, main.cpp line 15). -/
def SCR_HEIGHT : Nat := 600

/-- OpenGL / GLFW enumeration values used by the program. -/
def GL_VERTEX_SHADER : Nat := 0x8B31

def GL_FRAGMENT_SHADER : Nat := 0x8B30

def GL_COMPILE_STATUS : Nat := 0x8B81

def GL_LINK_STATUS : Nat := 0x8B82

def GL_ARRAY_BUFFER : Nat := 0x8892

def GL_STATIC_DRAW : Nat := 0x88E4

def GL_FLOAT : Nat := 0x1406

def GL_TRIANGLES : Nat := 0x0004

def GL_COLOR_BUFFER_BIT : Nat := 0x4000

def GLFW_KEY_ESCAPE : Nat := 256

def GLFW_PRESS : Nat := 1

def GLFW_RELEASE : Nat := 0

/-- The vertex shader source string (main.cpp lines 21-26). -/
def vertexShaderSource : String :=
  "#version 330 core\nlayout (location = 0) in vec3 aPos;\nvoid main()\n\x7b\n   gl_Position = vec4(aPos.x, aPos.y, aPos.z, 1.0);\n\x7d"

/-- The fragment shader source string (main.cpp lines 30-35). -/
def fragmentShaderSource : String :=
  "#version 330 core\nout vec4 FragColor;\nvoid main()\n\x7b\n   FragColor = vec4(1.0f, 0.5f, 0.2f, 1.0f);\n\x7d\n"

/-- `vertices_1` (main.cpp lines 130-134): 3 vertices of 3 float components.
Floats are modelled exactly as rationals. -/
def vertices_1 : List ℚ := [0, 0, 0, 1/2, 0, 0, 1/4, 1/2, 0]

/-- `vertices_2` (main.cpp lines 136-140): 3 vertices of 3 float components. -/
def vertices_2 : List ℚ := [0, 0, 0, -(1/2), 0, 0, -(1/4), 1/2, 0]

/-- `sizeof(float)` on the target platform: 4 bytes. -/
def sizeofFloat : Nat := 4

/-- `sizeof` of a C float array: element count times `sizeof(float)`. -/
def sizeofArray (v : List ℚ) : Nat := sizeofFloat * v.length

/-! ## GL object handles

GL handles are opaque non-zero identifiers returned by the driver; we fix
distinct concrete representatives for the seven objects the program creates,
in the order the source creates them. -/

def vertexShaderId : Nat := 1

def fragmentShaderId : Nat := 2

def shaderProgramId : Nat := 3

def VAO_1 : Nat := 4

def VAO_2 : Nat := 5

def VBO_1 : Nat := 6

def VBO_2 : Nat := 7

/-! ## The trace alphabet -/

/-- One constructor per distinct library call (or i/o line) the program makes,
carrying the arguments relevant to the specification.  `coutLine` is a line
written to standard output via `std::cout`, `cerrLine` a line written to
standard error via `std::cerr` (the source never writes to `std::cerr`, but
the constructor makes "message on stderr" expressible).  `glfwDestroyWindow`
is likewise never called by the source.  `glfwWindowShouldCloseCheck` records
one evaluation of the `while` condition with its result.
In `glBufferData`, `boundBuffer` records the buffer bound to the target at
the time of the call (statically determined in this straight-line program);
the data pointer is opaque and is captured by the `size` argument, which the
source computes as `sizeof` of the array being uploaded. -/
inductive GLCall where
  | glfwInit
  | glfwCreateWindow (width height : Nat) (title : String)
  | coutLine (s : String)
  | cerrLine (s : String)
  | glfwTerminate
  | glfwDestroyWindow
  | glfwMakeContextCurrent
  | glfwSetFramebufferSizeCallback
  | gladLoadGLLoader
  | glCreateShader (shaderType : Nat)
  | glShaderSource (shader : Nat) (src : String)
  | glCompileShader (shader : Nat)
  | glGetShaderiv (shader pname : Nat)
  | glGetShaderInfoLog (shader bufSize : Nat)
  | glCreateProgram
  | glAttachShader (program shader : Nat)
  | glLinkProgram (program : Nat)
  | glGetProgramiv (program pname : Nat)
  | glGetProgramInfoLog (program bufSize : Nat)
  | glDeleteShader (shader : Nat)
  | glGenVertexArrays (vao : Nat)
  | glGenBuffers (vbo : Nat)
  | glBindVertexArray (vao : Nat)
  | glBindBuffer (target vbo : Nat)
  | glBufferData (target size usage boundBuffer : Nat)
  | glVertexAttribPointer (index size typ : Nat) (normalized : Bool) (stride offset : Nat)
  | glEnableVertexAttribArray (index : Nat)
  | glfwWindowShouldCloseCheck (result : Bool)
  | glfwGetKey (key : Nat)
  | glfwSetWindowShouldClose (value : Bool)
  | glClearColor
  | glClear (mask : Nat)
  | glUseProgram (program : Nat)
  | glDrawArrays (mode first count : Nat)
  | glfwSwapBuffers
  | glfwPollEvents
  | glDeleteVertexArrays (vao : Nat)
  | glDeleteBuffers (vbo : Nat)
  | glDeleteProgram (program : Nat)
  deriving DecidableEq

/-! ## The environment oracle -/

/-- Outcomes of the external libraries, which the program only observes:
`glfwInitOk` is the (discarded) return value of `glfwInit`; `windowOk` is
whether `glfwCreateWindow` returns a non-NULL window; `gladOk` is the return
value of `gladLoadGLLoader`; the three `...Ok` flags are the
`GL_COMPILE_STATUS` / `GL_LINK_STATUS` values the driver reports, with the
corresponding info-log texts; `escKey i` is what `glfwGetKey(window,
GLFW_KEY_ESCAPE)` returns during loop iteration `i`; `externalClose i` is
whether event processing (`glfwPollEvents`) of iteration `i` sets the
window's should-close flag. -/
structure Env where
  glfwInitOk : Bool
  windowOk : Bool
  gladOk : Bool
  vertexCompileOk : Bool
  fragmentCompileOk : Bool
  linkOk : Bool
  vertexLog : String
  fragmentLog : String
  linkLog : String
  escKey : Nat → Nat
  externalClose : Nat → Bool

/-! ## The program -/

/-- `processInput` (main.cpp lines 226-230): if the escape key reads
`GLFW_PRESS`, set the window's should-close flag; otherwise the window state
is left unchanged.  Input is the key state observed and the current
should-close flag; output is the new flag and the calls made. -/
def processInput (keyState : Nat) (shouldClose : Bool) : Bool × List GLCall :=
  if keyState = GLFW_PRESS then
    (true, [GLCall.glfwGetKey GLFW_KEY_ESCAPE, GLCall.glfwSetWindowShouldClose true])
  else
    (shouldClose, [GLCall.glfwGetKey GLFW_KEY_ESCAPE])

/-- The body of one render-loop iteration after `processInput` (main.cpp
lines 192-211): clear, activate the program, bind and draw each VAO, swap
buffers, poll events. -/
def loopDrawCalls : List GLCall :=
  [GLCall.glClearColor, GLCall.glClear GL_COLOR_BUFFER_BIT,
   GLCall.glUseProgram shaderProgramId,
   GLCall.glBindVertexArray VAO_1, GLCall.glDrawArrays GL_TRIANGLES 0 3,
   GLCall.glBindVertexArray VAO_2, GLCall.glDrawArrays GL_TRIANGLES 0 3,
   GLCall.glfwSwapBuffers, GLCall.glfwPollEvents]

/-- The render loop (main.cpp lines 187-212): while the should-close flag is
false, run one iteration.  `key`/`ext` are the oracle's keyboard and event
streams, `i` the iteration counter, `sc` the current should-close flag.
Fuel bounds the number of condition evaluations; the returned Bool is true
exactly when the loop exited (the condition read the flag as true) within
the fuel, and the list is the trace produced. -/
def renderLoop (key : Nat → Nat) (ext : Nat → Bool) :
    Nat → Nat → Bool → Bool × List GLCall
  | 0, _, _ => (false, [])
  | fuel + 1, i, sc =>
    if sc then
      (true, [GLCall.glfwWindowShouldCloseCheck true])
    else
      let p := processInput (key i) sc
      let sc2 := p.1 || ext i
      let r := renderLoop key ext fuel (i + 1) sc2
      (r.1, GLCall.glfwWindowShouldCloseCheck false :: (p.2 ++ loopDrawCalls ++ r.2))

/-- `main` (main.cpp lines 37-224), mirrored line by line.  Returns the trace
of library calls and output lines, and the exit code: `some (-1)` on the two
failure paths, `some 0` when the render loop terminated and teardown ran,
`none` when the loop had not terminated within `fuel` condition checks. -/
def mainRun (env : Env) (fuel : Nat) : List GLCall × Option Int :=
  -- line 40: glfwInit() — return value discarded
  -- line 50: glfwCreateWindow(SCR_WIDTH, SCR_HEIGHT, "LearnOpenGL", NULL, NULL)
  let t0 : List GLCall :=
    [GLCall.glfwInit, GLCall.glfwCreateWindow SCR_WIDTH SCR_HEIGHT "LearnOpenGL"]
  if env.windowOk = false then
    -- lines 53-60: null window → message, glfwTerminate, return -1
    (t0 ++ [GLCall.coutLine "Failed to create GLFW window", GLCall.glfwTerminate],
     some (-1))
  else
    -- lines 63-68
    let t1 := t0 ++ [GLCall.glfwMakeContextCurrent,
      GLCall.glfwSetFramebufferSizeCallback, GLCall.gladLoadGLLoader]
    if env.gladOk = false then
      -- lines 68-72: GLAD failure → message, return -1 (no glfwTerminate)
      (t1 ++ [GLCall.coutLine "Failed to initialize GLAD"], some (-1))
    else
      -- lines 75-86: vertex shader create, source, compile, status query
      let t2 := t1 ++ [GLCall.glCreateShader GL_VERTEX_SHADER,
        GLCall.glShaderSource vertexShaderId vertexShaderSource,
        GLCall.glCompileShader vertexShaderId,
        GLCall.glGetShaderiv vertexShaderId GL_COMPILE_STATUS]
      -- lines 89-94: on failure, retrieve 512-byte info log and print
      let t3 := if env.vertexCompileOk = false then
          t2 ++ [GLCall.glGetShaderInfoLog vertexShaderId 512,
            GLCall.coutLine ("ERROR::SHADER::VERTEX::COMPILATION_FAILED\n" ++ env.vertexLog)]
        else t2
      -- lines 97-102: fragment shader create, source, compile, status query
      let t4 := t3 ++ [GLCall.glCreateShader GL_FRAGMENT_SHADER,
        GLCall.glShaderSource fragmentShaderId fragmentShaderSource,
        GLCall.glCompileShader fragmentShaderId,
        GLCall.glGetShaderiv fragmentShaderId GL_COMPILE_STATUS]
      -- lines 103-107
      let t5 := if env.fragmentCompileOk = false then
          t4 ++ [GLCall.glGetShaderInfoLog fragmentShaderId 512,
            GLCall.coutLine ("ERROR::SHADER::FRAGMENT::COMPILATION_FAILED\n" ++ env.fragmentLog)]
        else t4
      -- lines 110-118: program create, attach both shaders, link, status query
      let t6 := t5 ++ [GLCall.glCreateProgram,
        GLCall.glAttachShader shaderProgramId vertexShaderId,
        GLCall.glAttachShader shaderProgramId fragmentShaderId,
        GLCall.glLinkProgram shaderProgramId,
        GLCall.glGetProgramiv shaderProgramId GL_LINK_STATUS]
      -- lines 119-123
      let t7 := if env.linkOk = false then
          t6 ++ [GLCall.glGetProgramInfoLog shaderProgramId 512,
            GLCall.coutLine ("ERROR::SHADER::PROGRAM::LINKING_FAILED\n" ++ env.linkLog)]
        else t6
      -- lines 126-127: delete the two shader stage objects
      let t8 := t7 ++ [GLCall.glDeleteShader vertexShaderId,
        GLCall.glDeleteShader fragmentShaderId]
      -- lines 146-151: generate the two VAOs and the two VBOs
      let t9 := t8 ++ [GLCall.glGenVertexArrays VAO_1, GLCall.glGenVertexArrays VAO_2,
        GLCall.glGenBuffers VBO_1, GLCall.glGenBuffers VBO_2]
      -- lines 155-165: first VAO/VBO setup and upload
      let t10 := t9 ++ [GLCall.glBindVertexArray VAO_1,
        GLCall.glBindBuffer GL_ARRAY_BUFFER VBO_1,
        GLCall.glBufferData GL_ARRAY_BUFFER (sizeofArray vertices_1) GL_STATIC_DRAW VBO_1,
        GLCall.glVertexAttribPointer 0 3 GL_FLOAT false (3 * sizeofFloat) 0,
        GLCall.glEnableVertexAttribArray 0]
      -- lines 171-181: second VAO/VBO setup and upload
      let t11 := t10 ++ [GLCall.glBindVertexArray VAO_2,
        GLCall.glBindBuffer GL_ARRAY_BUFFER VBO_2,
        GLCall.glBufferData GL_ARRAY_BUFFER (sizeofArray vertices_2) GL_STATIC_DRAW VBO_2,
        GLCall.glVertexAttribPointer 0 3 GL_FLOAT false (3 * sizeofFloat) 0,
        GLCall.glEnableVertexAttribArray 0]
      -- lines 187-212: the render loop, starting with the flag false
      let r := renderLoop env.escKey env.externalClose fuel 0 false
      if r.1 then
        -- lines 215-223: teardown and return 0
        (t11 ++ r.2 ++ [GLCall.glDeleteVertexArrays VAO_1, GLCall.glDeleteBuffers VBO_1,
          GLCall.glDeleteVertexArrays VAO_2, GLCall.glDeleteBuffers VBO_2,
          GLCall.glDeleteProgram shaderProgramId, GLCall.glfwTerminate], some 0)
      else
        (t11 ++ r.2, none)

/-! ## Call classifiers -/

/-- A should-close condition check. -/
def isCheck : GLCall → Bool
  | GLCall.glfwWindowShouldCloseCheck _ => true
  | _ => false

/-- A `glfwPollEvents` call: each loop iteration makes exactly one, so these
count iterations. -/
def isPoll : GLCall → Bool
  | GLCall.glfwPollEvents => true
  | _ => false

/-- Calls that the render loop of this program can make, with the exact
arguments the loop body passes. -/
def isLoopCall : GLCall → Bool
  | GLCall.glfwWindowShouldCloseCheck _ => true
  | GLCall.glfwGetKey k => k == GLFW_KEY_ESCAPE
  | GLCall.glfwSetWindowShouldClose v => v == true
  | GLCall.glClearColor => true
  | GLCall.glClear m => m == GL_COLOR_BUFFER_BIT
  | GLCall.glUseProgram p => p == shaderProgramId
  | GLCall.glBindVertexArray v => (v == VAO_1) || (v == VAO_2)
  | GLCall.glDrawArrays m f c => (m == GL_TRIANGLES) && (f == 0) && (c == 3)
  | GLCall.glfwSwapBuffers => true
  | GLCall.glfwPollEvents => true
  | _ => false

/-- Creation of one of the long-lived GPU entities: the shader program, a
vertex array object, or a vertex buffer object. -/
def isEntityGen : GLCall → Bool
  | GLCall.glCreateProgram => true
  | GLCall.glGenVertexArrays _ => true
  | GLCall.glGenBuffers _ => true
  | _ => false

/-- Deletion of one of the long-lived GPU entities. -/
def isEntityDelete : GLCall → Bool
  | GLCall.glDeleteVertexArrays _ => true
  | GLCall.glDeleteBuffers _ => true
  | GLCall.glDeleteProgram _ => true
  | _ => false

/-- A `glBufferData` upload. -/
def isBufferUpload : GLCall → Bool
  | GLCall.glBufferData _ _ _ _ => true
  | _ => false

/-- A `glVertexAttribPointer` declaration. -/
def isAttribPointer : GLCall → Bool
  | GLCall.glVertexAttribPointer _ _ _ _ _ _ => true
  | _ => false

/-- A line written to standard output. -/
def isCout : GLCall → Bool
  | GLCall.coutLine _ => true
  | _ => false

/-- A line written to standard error. -/
def isCerr : GLCall → Bool
  | GLCall.cerrLine _ => true
  | _ => false

/-- A `glDeleteShader` call (deletion of a compiled shader stage). -/
def isShaderDelete : GLCall → Bool
  | GLCall.glDeleteShader _ => true
  | _ => false

/-- The calls that make up diagnostic handling of a failed compile or link:
retrieving an info log and printing a line.  Erasing these from a trace
leaves the program's remaining behaviour. -/
def isDiagCall : GLCall → Bool
  | GLCall.coutLine _ => true
  | GLCall.glGetShaderInfoLog _ _ => true
  | GLCall.glGetProgramInfoLog _ _ => true
  | _ => false

/-! ## Phases of the success path -/

/-- Window/context creation (main.cpp lines 40-65). -/
def contextPhase : List GLCall :=
  [GLCall.glfwInit, GLCall.glfwCreateWindow SCR_WIDTH SCR_HEIGHT "LearnOpenGL",
   GLCall.glfwMakeContextCurrent, GLCall.glfwSetFramebufferSizeCallback]

/-- OpenGL function loading (main.cpp line 68). -/
def loadPhase : List GLCall := [GLCall.gladLoadGLLoader]

/-- Shader compilation and program linking (main.cpp lines 75-127), including
the diagnostic calls of whichever stages the oracle fails, and ending with
the deletion of the two compiled shader stages. -/
def shaderPhase (env : Env) : List GLCall :=
  [GLCall.glCreateShader GL_VERTEX_SHADER,
   GLCall.glShaderSource vertexShaderId vertexShaderSource,
   GLCall.glCompileShader vertexShaderId,
   GLCall.glGetShaderiv vertexShaderId GL_COMPILE_STATUS]
  ++ (if env.vertexCompileOk = false then
        [GLCall.glGetShaderInfoLog vertexShaderId 512,
         GLCall.coutLine ("ERROR::SHADER::VERTEX::COMPILATION_FAILED\n" ++ env.vertexLog)]
      else [])
  ++ [GLCall.glCreateShader GL_FRAGMENT_SHADER,
      GLCall.glShaderSource fragmentShaderId fragmentShaderSource,
      GLCall.glCompileShader fragmentShaderId,
      GLCall.glGetShaderiv fragmentShaderId GL_COMPILE_STATUS]
  ++ (if env.fragmentCompileOk = false then
        [GLCall.glGetShaderInfoLog fragmentShaderId 512,
         GLCall.coutLine ("ERROR::SHADER::FRAGMENT::COMPILATION_FAILED\n" ++ env.fragmentLog)]
      else [])
  ++ [GLCall.glCreateProgram,
      GLCall.glAttachShader shaderProgramId vertexShaderId,
      GLCall.glAttachShader shaderProgramId fragmentShaderId,
      GLCall.glLinkProgram shaderProgramId,
      GLCall.glGetProgramiv shaderProgramId GL_LINK_STATUS]
  ++ (if env.linkOk = false then
        [GLCall.glGetProgramInfoLog shaderProgramId 512,
         GLCall.coutLine ("ERROR::SHADER::PROGRAM::LINKING_FAILED\n" ++ env.linkLog)]
      else [])
  ++ [GLCall.glDeleteShader vertexShaderId, GLCall.glDeleteShader fragmentShaderId]

/-- Vertex-array and vertex-buffer creation, upload and attribute layout
(main.cpp lines 146-181). -/
def bufferPhase : List GLCall :=
  [GLCall.glGenVertexArrays VAO_1, GLCall.glGenVertexArrays VAO_2,
   GLCall.glGenBuffers VBO_1, GLCall.glGenBuffers VBO_2,
   GLCall.glBindVertexArray VAO_1,
   GLCall.glBindBuffer GL_ARRAY_BUFFER VBO_1,
   GLCall.glBufferData GL_ARRAY_BUFFER (sizeofArray vertices_1) GL_STATIC_DRAW VBO_1,
   GLCall.glVertexAttribPointer 0 3 GL_FLOAT false (3 * sizeofFloat) 0,
   GLCall.glEnableVertexAttribArray 0,
   GLCall.glBindVertexArray VAO_2,
   GLCall.glBindBuffer GL_ARRAY_BUFFER VBO_2,
   GLCall.glBufferData GL_ARRAY_BUFFER (sizeofArray vertices_2) GL_STATIC_DRAW VBO_2,
   GLCall.glVertexAttribPointer 0 3 GL_FLOAT false (3 * sizeofFloat) 0,
   GLCall.glEnableVertexAttribArray 0]

/-- Teardown (main.cpp lines 215-222). -/
def teardownPhase : List GLCall :=
  [GLCall.glDeleteVertexArrays VAO_1, GLCall.glDeleteBuffers VBO_1,
   GLCall.glDeleteVertexArrays VAO_2, GLCall.glDeleteBuffers VBO_2,
   GLCall.glDeleteProgram shaderProgramId, GLCall.glfwTerminate]

/-! ## Helper lemmas -/

/-- On the success path the trace of `mainRun` decomposes into the phases in
their source order, with the exit code determined by loop termination. -/
lemma mainRun_eq_phases (env : Env) (fuel : Nat)
    (hw : env.windowOk = true) (hg : env.gladOk = true) :
    mainRun env fuel =
      (contextPhase ++ loadPhase ++ shaderPhase env ++ bufferPhase
         ++ (renderLoop env.escKey env.externalClose fuel 0 false).2
         ++ (if (renderLoop env.escKey env.externalClose fuel 0 false).1 then
               teardownPhase else []),
       if (renderLoop env.escKey env.externalClose fuel 0 false).1 then some 0
       else none) := by
  cases hv : env.vertexCompileOk <;> cases hf : env.fragmentCompileOk <;>
    cases hl : env.linkOk <;>
    cases hr : (renderLoop env.escKey env.externalClose fuel 0 false).1 <;>
    simp [mainRun, contextPhase, loadPhase, shaderPhase, bufferPhase, teardownPhase,
      hw, hg, hv, hf, hl, hr]

/-- Unfolding: out of fuel. -/
lemma renderLoop_zero (key : Nat → Nat) (ext : Nat → Bool) (i : Nat) (sc : Bool) :
    renderLoop key ext 0 i sc = (false, []) := rfl

/-- Unfolding: the condition reads the flag as true and the loop exits. -/
lemma renderLoop_flag_true (key : Nat → Nat) (ext : Nat → Bool) (fuel i : Nat) :
    renderLoop key ext (fuel + 1) i true =
      (true, [GLCall.glfwWindowShouldCloseCheck true]) := rfl

/-- Unfolding: the condition reads the flag as false and one iteration runs:
`processInput`, the draw calls, then the rest of the loop with the flag as
left by `processInput` and event processing. -/
lemma renderLoop_succ_false (key : Nat → Nat) (ext : Nat → Bool) (n i : Nat) :
    renderLoop key ext (n + 1) i false =
      ((renderLoop key ext n (i + 1) ((processInput (key i) false).1 || ext i)).1,
       GLCall.glfwWindowShouldCloseCheck false ::
         ((processInput (key i) false).2 ++ loopDrawCalls ++
          (renderLoop key ext n (i + 1) ((processInput (key i) false).1 || ext i)).2)) := rfl

/-- `processInput` only reads the key and possibly sets the flag. -/
lemma processInput_calls (k : Nat) (b : Bool) :
    ∀ e ∈ (processInput k b).2, isLoopCall e = true := by
  intro e h
  by_cases hk : k = GLFW_PRESS <;> simp [processInput, hk] at h
  · rcases h with rfl | rfl <;> rfl
  · subst h; rfl

/-- Every call made by the render loop is a loop call. -/
lemma renderLoop_calls (key : Nat → Nat) (ext : Nat → Bool) :
    ∀ fuel i sc, ∀ e ∈ (renderLoop key ext fuel i sc).2, isLoopCall e = true := by
  intro fuel
  induction fuel with
  | zero => intro i sc e h; simp [renderLoop_zero] at h
  | succ n ih =>
    intro i sc e h
    cases sc with
    | true =>
      rw [renderLoop_flag_true] at h
      simp at h; subst h; rfl
    | false =>
      rw [renderLoop_succ_false] at h
      simp only [List.mem_cons, List.mem_append] at h
      rcases h with rfl | ((h | h) | h)
      · rfl
      · exact processInput_calls _ _ e h
      · simp [loopDrawCalls] at h
        rcases h with rfl | rfl | rfl | rfl | rfl | rfl | rfl | rfl | rfl <;> rfl
      · exact ih _ _ e h

/-- The loop exits within the fuel exactly when some iteration `j` it can
reach requests closing: the escape key reads `GLFW_PRESS` at `j` or event
processing at `j` sets the flag, with enough fuel (`j + 2` condition
evaluations from the start at `i`) to run iterations `i..j` and the final
check. -/
lemma renderLoop_fin_iff (key : Nat → Nat) (ext : Nat → Bool) :
    ∀ fuel i, (renderLoop key ext fuel i false).1 = true ↔
      ∃ j, i ≤ j ∧ j + 2 ≤ i + fuel ∧ (key j = GLFW_PRESS ∨ ext j = true) := by
  intro fuel
  induction fuel with
  | zero =>
    intro i
    rw [renderLoop_zero]
    constructor
    · intro h; exact absurd h (by simp)
    · rintro ⟨j, h1, h2, _⟩; omega
  | succ n ih =>
    intro i
    rw [renderLoop_succ_false]
    by_cases hk : key i = GLFW_PRESS
    · have hp : (processInput (key i) false).1 = true := by simp [processInput, hk]
      rw [hp, Bool.true_or]
      cases n with
      | zero =>
        rw [renderLoop_zero]
        constructor
        · intro h; exact absurd h (by simp)
        · rintro ⟨j, h1, h2, _⟩; omega
      | succ m =>
        rw [renderLoop_flag_true]
        constructor
        · intro _; exact ⟨i, le_refl i, by omega, Or.inl hk⟩
        · intro _; rfl
    · have hp : (processInput (key i) false).1 = false := by simp [processInput, hk]
      rw [hp, Bool.false_or]
      by_cases he : ext i = true
      · rw [he]
        cases n with
        | zero =>
          rw [renderLoop_zero]
          constructor
          · intro h; exact absurd h (by simp)
          · rintro ⟨j, h1, h2, _⟩; omega
        | succ m =>
          rw [renderLoop_flag_true]
          constructor
          · intro _; exact ⟨i, le_refl i, by omega, Or.inr he⟩
          · intro _; rfl
      · have he' : ext i = false := by revert he; cases ext i <;> simp
        rw [he', ih (i + 1)]
        constructor
        · rintro ⟨j, h1, h2, h3⟩; exact ⟨j, by omega, by omega, h3⟩
        · rintro ⟨j, h1, h2, h3⟩
          have hj : j ≠ i := by
            rintro rfl
            rcases h3 with h3 | h3
            · exact hk h3
            · rw [he'] at h3; exact absurd h3 (by simp)
          exact ⟨j, by omega, by omega, h3⟩

/-- The condition is evaluated exactly once per iteration: the checks in the
loop trace are one false check per iteration (counted by the one
`glfwPollEvents` each iteration makes), followed by a single true check
exactly when the loop exited. -/
lemma renderLoop_checks (key : Nat → Nat) (ext : Nat → Bool) :
    ∀ fuel i sc,
      ((renderLoop key ext fuel i sc).2.filter isCheck) =
        List.replicate ((renderLoop key ext fuel i sc).2.countP isPoll)
            (GLCall.glfwWindowShouldCloseCheck false)
          ++ (if (renderLoop key ext fuel i sc).1 then
                [GLCall.glfwWindowShouldCloseCheck true] else []) := by
  intro fuel
  induction fuel with
  | zero => intro i sc; rw [renderLoop_zero]; simp
  | succ n ih =>
    intro i sc
    cases sc with
    | true => rw [renderLoop_flag_true]; simp [isCheck, isPoll]
    | false =>
      have hpf : ((processInput (key i) false).2.filter isCheck) = [] := by
        by_cases hk : key i = GLFW_PRESS <;> simp [processInput, hk, isCheck]
      have hpc : ((processInput (key i) false).2.countP isPoll) = 0 := by
        by_cases hk : key i = GLFW_PRESS <;> simp [processInput, hk, isPoll]
      have hdf : (loopDrawCalls.filter isCheck) = [] := by simp [loopDrawCalls, isCheck]
      have hdc : (loopDrawCalls.countP isPoll) = 1 := by simp [loopDrawCalls, isPoll]
      have hrest := ih (i + 1) ((processInput (key i) false).1 || ext i)
      simp only [renderLoop_succ_false, List.filter_cons, List.filter_append,
        List.countP_cons, List.countP_append, hpf, hpc, hdf, hdc, hrest]
      simp only [isCheck, isPoll, if_true, if_false, List.nil_append, Nat.add_zero,
        Nat.zero_add]
      simp only [Bool.false_eq_true, if_false, Nat.add_zero]
      rw [Nat.add_comm 1, List.replicate_succ, List.cons_append]

/-- If the loop, started with the flag down, exits, then at least one full
iteration ran, so the shader program was activated (and each of the body
calls made). -/
lemma renderLoop_fin_body (key : Nat → Nat) (ext : Nat → Bool) (fuel i : Nat)
    (h : (renderLoop key ext fuel i false).1 = true) :
    ∀ e ∈ loopDrawCalls, e ∈ (renderLoop key ext fuel i false).2 := by
  intro e he
  cases fuel with
  | zero => rw [renderLoop_zero] at h; exact absurd h (by simp)
  | succ n =>
    rw [renderLoop_succ_false]
    simp only [List.mem_cons, List.mem_append]
    exact Or.inr (Or.inl (Or.inr he))

/-- Filtering the loop trace by a predicate false on all loop calls gives
nothing: the loop makes no such call. -/
lemma renderLoop_filter_nil (key : Nat → Nat) (ext : Nat → Bool) (fuel i : Nat)
    (sc : Bool) (q : GLCall → Bool) (hq : ∀ e, isLoopCall e = true → q e = false) :
    ((renderLoop key ext fuel i sc).2.filter q) = [] := by
  rw [List.filter_eq_nil_iff]
  intro e he
  have := hq e (renderLoop_calls key ext fuel i sc e he)
  simp [this]

/-! ## Concrete oracles for witnesses -/

/-- A benign oracle: every library call succeeds, the escape key reads
pressed from iteration 0 on, and no external event closes the window. -/
def envPressEsc : Env :=
  ⟨true, true, true, true, true, true, "", "", "",
   fun _ => GLFW_PRESS, fun _ => false⟩

/-! ## Claims -/

/-- C1 counterexample: the claim asserts a *stderr* message on each failure
exit, but on window-creation failure the program exits with code -1 having
written nothing to standard error — the message goes to standard output. -/
theorem C1_stderr_counterexample :
    (mainRun { envPressEsc with windowOk := false } 3).2 = some (-1) ∧
    (mainRun { envPressEsc with windowOk := false } 3).1.filter isCerr = [] ∧
    GLCall.coutLine "Failed to create GLFW window"
      ∈ (mainRun { envPressEsc with windowOk := false } 3).1 := by
  decide

/-- C1 (amended): the program exits with code 0 on normal termination and
with code -1 on window-creation or GLAD failure, emitting a
*standard-output* message in each failure case; no other exit codes are
produced. -/
theorem C1_exit_codes (env : Env) (fuel : Nat) (tr : List GLCall) (c : Int)
    (h : mainRun env fuel = (tr, some c)) :
    (c = 0 ∨ c = -1) ∧
    (env.windowOk = false →
      c = -1 ∧ GLCall.coutLine "Failed to create GLFW window" ∈ tr) ∧
    (env.windowOk = true → env.gladOk = false →
      c = -1 ∧ GLCall.coutLine "Failed to initialize GLAD" ∈ tr) ∧
    (env.windowOk = true → env.gladOk = true → c = 0) := by
  have h1 : (mainRun env fuel).1 = tr := by rw [h]
  have h2 : (mainRun env fuel).2 = some c := by rw [h]
  cases hw : env.windowOk with
  | false =>
    have e2 : (mainRun env fuel).2 = some (-1) := by simp [mainRun, hw]
    have hc : c = -1 := by rw [e2] at h2; exact (Option.some.inj h2).symm
    have m : GLCall.coutLine "Failed to create GLFW window" ∈ (mainRun env fuel).1 := by
      simp [mainRun, hw]
    rw [h1] at m
    exact ⟨Or.inr hc, fun _ => ⟨hc, m⟩,
      fun hw' => absurd hw' (by simp),
      fun hw' => absurd hw' (by simp)⟩
  | true =>
    cases hg : env.gladOk with
    | false =>
      have e2 : (mainRun env fuel).2 = some (-1) := by simp [mainRun, hw, hg]
      have hc : c = -1 := by rw [e2] at h2; exact (Option.some.inj h2).symm
      have m : GLCall.coutLine "Failed to initialize GLAD" ∈ (mainRun env fuel).1 := by
        simp [mainRun, hw, hg]
      rw [h1] at m
      exact ⟨Or.inr hc, fun hw' => absurd hw' (by simp),
        fun _ _ => ⟨hc, m⟩,
        fun _ hg' => absurd hg' (by simp)⟩
    | true =>
      have hp := mainRun_eq_phases env fuel hw hg
      cases hfin : (renderLoop env.escKey env.externalClose fuel 0 false).1 with
      | false =>
        rw [hp] at h2
        simp [hfin] at h2
      | true =>
        have e2 : (mainRun env fuel).2 = some 0 := by rw [hp]; simp [hfin]
        have hc : c = 0 := by rw [e2] at h2; exact (Option.some.inj h2).symm
        exact ⟨Or.inl hc, fun hw' => absurd hw' (by simp),
          fun _ hg' => absurd hg' (by simp), fun _ _ => hc⟩

/-- Witness for C1: a run in which the escape key is pressed terminates
normally with exit code 0 and satisfies the exit-code contract. -/
theorem C1_exit_codes_witness :
    ((0:Int) = 0 ∨ (0:Int) = -1) ∧
    (envPressEsc.windowOk = false →
      (0:Int) = -1 ∧
      GLCall.coutLine "Failed to create GLFW window" ∈ (mainRun envPressEsc 3).1) ∧
    (envPressEsc.windowOk = true → envPressEsc.gladOk = false →
      (0:Int) = -1 ∧
      GLCall.coutLine "Failed to initialize GLAD" ∈ (mainRun envPressEsc 3).1) ∧
    (envPressEsc.windowOk = true → envPressEsc.gladOk = true → (0:Int) = 0) :=
  C1_exit_codes envPressEsc 3 (mainRun envPressEsc 3).1 0 (by decide)

/-- C8: the two failure paths release different amounts of state.  On
window-creation failure the program calls `glfwTerminate` (the last call of
the trace) before exiting -1; on GLAD failure it exits -1 with neither a
`glfwTerminate` nor a `glfwDestroyWindow` call anywhere in the trace. -/
theorem C8_failure_cleanup (env : Env) (fuel : Nat) :
    mainRun { env with windowOk := false } fuel =
      ([GLCall.glfwInit, GLCall.glfwCreateWindow SCR_WIDTH SCR_HEIGHT "LearnOpenGL",
        GLCall.coutLine "Failed to create GLFW window", GLCall.glfwTerminate],
       some (-1)) ∧
    mainRun { env with windowOk := true, gladOk := false } fuel =
      ([GLCall.glfwInit, GLCall.glfwCreateWindow SCR_WIDTH SCR_HEIGHT "LearnOpenGL",
        GLCall.glfwMakeContextCurrent, GLCall.glfwSetFramebufferSizeCallback,
        GLCall.gladLoadGLLoader, GLCall.coutLine "Failed to initialize GLAD"],
       some (-1)) ∧
    GLCall.glfwTerminate ∉ (mainRun { env with windowOk := true, gladOk := false } fuel).1 ∧
    GLCall.glfwDestroyWindow ∉ (mainRun { env with windowOk := true, gladOk := false } fuel).1 := by
  refine ⟨rfl, rfl, ?_, ?_⟩ <;> simp [mainRun]

/-- C9: the return value of `glfwInit` is ignored: the run is identical for
either value of it, and window creation is always reached (the
`glfwCreateWindow` call is in every trace), with no failure branch for this
step. -/
theorem C9_glfwInit_ignored (env : Env) (fuel : Nat) (b : Bool) :
    mainRun { env with glfwInitOk := b } fuel = mainRun env fuel ∧
    GLCall.glfwCreateWindow SCR_WIDTH SCR_HEIGHT "LearnOpenGL" ∈ (mainRun env fuel).1 := by
  constructor
  · rfl
  · cases hw : env.windowOk with
    | false => simp [mainRun, hw]
    | true =>
      cases hg : env.gladOk with
      | false => simp [mainRun, hw, hg]
      | true =>
        rw [mainRun_eq_phases env fuel hw hg]
        simp [contextPhase]

/-- C4: the render loop runs while and only while the should-close flag is
false.  (1) It exits within the fuel exactly when some reachable iteration
requests closing (escape key or window event) — no other condition stops it;
(2) the condition is evaluated exactly once per iteration: the checks of the
trace are one false check per iteration (iterations counted by their single
`glfwPollEvents` call) followed by one true check exactly when the loop
exited; (3) once the flag is true the loop body never runs again: the loop
makes only the final check and terminates; (4) once the loop of a run of
`main` has exited, execution proceeds to teardown: the run's trace ends with
`teardownPhase` and the program returns 0. -/
theorem C4_loop_condition (key : Nat → Nat) (ext : Nat → Bool) (fuel : Nat)
    (env : Env) (hw : env.windowOk = true) (hg : env.gladOk = true) :
    ((renderLoop key ext fuel 0 false).1 = true ↔
      ∃ j, j + 2 ≤ fuel ∧ (key j = GLFW_PRESS ∨ ext j = true)) ∧
    ((renderLoop key ext fuel 0 false).2.filter isCheck =
      List.replicate ((renderLoop key ext fuel 0 false).2.countP isPoll)
          (GLCall.glfwWindowShouldCloseCheck false)
        ++ (if (renderLoop key ext fuel 0 false).1 then
              [GLCall.glfwWindowShouldCloseCheck true] else [])) ∧
    (∀ n i, renderLoop key ext (n + 1) i true =
      (true, [GLCall.glfwWindowShouldCloseCheck true])) ∧
    ((renderLoop env.escKey env.externalClose fuel 0 false).1 = true →
      (mainRun env fuel).2 = some 0 ∧
      ∃ t, (mainRun env fuel).1 = t ++ teardownPhase) := by
  refine ⟨?_, renderLoop_checks key ext fuel 0 false,
    fun n i => renderLoop_flag_true key ext n i, ?_⟩
  · rw [renderLoop_fin_iff key ext fuel 0]
    constructor
    · rintro ⟨j, _, h2, h3⟩; exact ⟨j, by omega, h3⟩
    · rintro ⟨j, h2, h3⟩; exact ⟨j, Nat.zero_le j, by omega, h3⟩
  · intro hfin
    have hp := mainRun_eq_phases env fuel hw hg
    constructor
    · rw [hp]; simp [hfin]
    · refine ⟨contextPhase ++ loadPhase ++ shaderPhase env ++ bufferPhase
        ++ (renderLoop env.escKey env.externalClose fuel 0 false).2, ?_⟩
      rw [hp]
      simp [hfin]

/-- Witness for C4 at a concrete run whose loop exits (escape pressed at
iteration 0): the loop facts hold and the run ends in teardown with exit
code 0. -/
theorem C4_loop_condition_witness :
    ((renderLoop envPressEsc.escKey envPressEsc.externalClose 3 0 false).1 = true ↔
      ∃ j, j + 2 ≤ 3 ∧
        (envPressEsc.escKey j = GLFW_PRESS ∨ envPressEsc.externalClose j = true)) ∧
    ((renderLoop envPressEsc.escKey envPressEsc.externalClose 3 0 false).2.filter isCheck =
      List.replicate
          ((renderLoop envPressEsc.escKey envPressEsc.externalClose 3 0 false).2.countP
            isPoll)
          (GLCall.glfwWindowShouldCloseCheck false)
        ++ (if (renderLoop envPressEsc.escKey envPressEsc.externalClose 3 0 false).1 then
              [GLCall.glfwWindowShouldCloseCheck true] else [])) ∧
    (∀ n i, renderLoop envPressEsc.escKey envPressEsc.externalClose (n + 1) i true =
      (true, [GLCall.glfwWindowShouldCloseCheck true])) ∧
    ((renderLoop envPressEsc.escKey envPressEsc.externalClose 3 0 false).1 = true →
      (mainRun envPressEsc 3).2 = some 0 ∧
      ∃ t, (mainRun envPressEsc 3).1 = t ++ teardownPhase) :=
  C4_loop_condition envPressEsc.escKey envPressEsc.externalClose 3 envPressEsc rfl rfl

/-- C10: `processInput` sets the window's should-close flag exactly when the
escape key reads `GLFW_PRESS`, and otherwise changes nothing (it only reads
the key); and once the flag is set during a reachable iteration, the loop
exits and the program runs teardown and returns 0. -/
theorem C10_esc_closes (env : Env) (fuel j k : Nat) (sc : Bool)
    (hw : env.windowOk = true) (hg : env.gladOk = true)
    (hj : j + 2 ≤ fuel) (hesc : env.escKey j = GLFW_PRESS) :
    ((processInput k sc).1 = true ↔ (k = GLFW_PRESS ∨ sc = true)) ∧
    (k ≠ GLFW_PRESS → processInput k sc = (sc, [GLCall.glfwGetKey GLFW_KEY_ESCAPE])) ∧
    processInput GLFW_PRESS sc =
      (true, [GLCall.glfwGetKey GLFW_KEY_ESCAPE, GLCall.glfwSetWindowShouldClose true]) ∧
    (mainRun env fuel).2 = some 0 ∧
    ∃ t, (mainRun env fuel).1 = t ++ teardownPhase := by
  have hfin : (renderLoop env.escKey env.externalClose fuel 0 false).1 = true := by
    rw [renderLoop_fin_iff env.escKey env.externalClose fuel 0]
    exact ⟨j, Nat.zero_le j, by omega, Or.inl hesc⟩
  have hp := mainRun_eq_phases env fuel hw hg
  refine ⟨?_, ?_, ?_, ?_, ?_⟩
  · by_cases hk : k = GLFW_PRESS <;> simp [processInput, hk]
  · intro hk; simp [processInput, hk]
  · simp [processInput]
  · rw [hp]; simp [hfin]
  · refine ⟨contextPhase ++ loadPhase ++ shaderPhase env ++ bufferPhase
      ++ (renderLoop env.escKey env.externalClose fuel 0 false).2, ?_⟩
    rw [hp]
    simp [hfin]

/-- Witness for C10: with the escape key pressed at iteration 0 and fuel for
it, the run returns 0 and ends in teardown. -/
theorem C10_esc_closes_witness :
    ((processInput GLFW_RELEASE false).1 = true ↔
      (GLFW_RELEASE = GLFW_PRESS ∨ false = true)) ∧
    (GLFW_RELEASE ≠ GLFW_PRESS →
      processInput GLFW_RELEASE false = (false, [GLCall.glfwGetKey GLFW_KEY_ESCAPE])) ∧
    processInput GLFW_PRESS false =
      (true, [GLCall.glfwGetKey GLFW_KEY_ESCAPE, GLCall.glfwSetWindowShouldClose true]) ∧
    (mainRun envPressEsc 3).2 = some 0 ∧
    ∃ t, (mainRun envPressEsc 3).1 = t ++ teardownPhase :=
  C10_esc_closes envPressEsc 3 0 GLFW_RELEASE false rfl rfl (by decide) rfl

/-- C3: on the success path `main` performs its steps in the fixed order
window/context creation, function loading, shader compile/link, buffer
setup, render loop, teardown — the trace is exactly the concatenation of
these phases; every call inside the loop segment is a loop call (so no
pipeline step strays into the loop); and each loop iteration is the fixed
clear-bind-draw-swap-poll block after its single condition check. -/
theorem C3_pipeline_order (env : Env) (fuel : Nat)
    (hw : env.windowOk = true) (hg : env.gladOk = true) :
    (mainRun env fuel).1 =
      contextPhase ++ loadPhase ++ shaderPhase env ++ bufferPhase
        ++ (renderLoop env.escKey env.externalClose fuel 0 false).2
        ++ (if (renderLoop env.escKey env.externalClose fuel 0 false).1 then
              teardownPhase else []) ∧
    (∀ e ∈ (renderLoop env.escKey env.externalClose fuel 0 false).2,
      isLoopCall e = true) ∧
    (∀ n i, (renderLoop env.escKey env.externalClose (n + 1) i false).2 =
      GLCall.glfwWindowShouldCloseCheck false ::
        ((processInput (env.escKey i) false).2 ++ loopDrawCalls ++
         (renderLoop env.escKey env.externalClose n (i + 1)
           ((processInput (env.escKey i) false).1 || env.externalClose i)).2)) := by
  refine ⟨?_, renderLoop_calls env.escKey env.externalClose fuel 0 false, ?_⟩
  · rw [mainRun_eq_phases env fuel hw hg]
  · intro n i
    rw [renderLoop_succ_false]

/-- Witness for C3: the phase decomposition at a concrete terminating run. -/
theorem C3_pipeline_order_witness :
    (mainRun envPressEsc 3).1 =
      contextPhase ++ loadPhase ++ shaderPhase envPressEsc ++ bufferPhase
        ++ (renderLoop envPressEsc.escKey envPressEsc.externalClose 3 0 false).2
        ++ (if (renderLoop envPressEsc.escKey envPressEsc.externalClose 3 0 false).1 then
              teardownPhase else []) ∧
    (∀ e ∈ (renderLoop envPressEsc.escKey envPressEsc.externalClose 3 0 false).2,
      isLoopCall e = true) ∧
    (∀ n i, (renderLoop envPressEsc.escKey envPressEsc.externalClose (n + 1) i false).2 =
      GLCall.glfwWindowShouldCloseCheck false ::
        ((processInput (envPressEsc.escKey i) false).2 ++ loopDrawCalls ++
         (renderLoop envPressEsc.escKey envPressEsc.externalClose n (i + 1)
           ((processInput (envPressEsc.escKey i) false).1 ||
            envPressEsc.externalClose i)).2)) :=
  C3_pipeline_order envPressEsc 3 rfl rfl

/-- The shader-phase calls that remain when diagnostic handling (info-log
retrieval and printed lines) is erased: a fixed sequence independent of the
compile/link status flags. -/
def strippedShaderCalls : List GLCall :=
  [GLCall.glCreateShader GL_VERTEX_SHADER,
   GLCall.glShaderSource vertexShaderId vertexShaderSource,
   GLCall.glCompileShader vertexShaderId,
   GLCall.glGetShaderiv vertexShaderId GL_COMPILE_STATUS,
   GLCall.glCreateShader GL_FRAGMENT_SHADER,
   GLCall.glShaderSource fragmentShaderId fragmentShaderSource,
   GLCall.glCompileShader fragmentShaderId,
   GLCall.glGetShaderiv fragmentShaderId GL_COMPILE_STATUS,
   GLCall.glCreateProgram,
   GLCall.glAttachShader shaderProgramId vertexShaderId,
   GLCall.glAttachShader shaderProgramId fragmentShaderId,
   GLCall.glLinkProgram shaderProgramId,
   GLCall.glGetProgramiv shaderProgramId GL_LINK_STATUS,
   GLCall.glDeleteShader vertexShaderId, GLCall.glDeleteShader fragmentShaderId]

/-- Erasing diagnostic calls from the shader phase leaves the same fixed
sequence whatever the status flags report. -/
lemma shaderPhase_strip (env : Env) :
    (shaderPhase env).filter (fun e => !(isDiagCall e)) = strippedShaderCalls := by
  cases hv : env.vertexCompileOk <;> cases hf : env.fragmentCompileOk <;>
    cases hl : env.linkOk <;>
    simp [shaderPhase, strippedShaderCalls, hv, hf, hl, isDiagCall]

/-- A loop call is never a diagnostic call. -/
lemma loopCall_not_diag (e : GLCall) (h : isLoopCall e = true) : isDiagCall e = false := by
  cases e <;> first | rfl | simp [isLoopCall] at h

/-- C2: whenever a shader stage fails to compile, and whenever the link
fails, the program retrieves the diagnostic into a 512-byte buffer and
prints it on standard output; the exit code is unaffected, erasing the
diagnostic calls leaves a trace that does not depend on the status flags at
all (so the failure has no effect beyond the log lines), and execution still
reaches the render loop, which activates the resulting shader program. -/
theorem C2_shader_failure_logged (env : Env) (fuel : Nat)
    (hw : env.windowOk = true) (hg : env.gladOk = true) :
    (env.vertexCompileOk = false →
       GLCall.glGetShaderInfoLog vertexShaderId 512 ∈ (mainRun env fuel).1 ∧
       GLCall.coutLine ("ERROR::SHADER::VERTEX::COMPILATION_FAILED\n" ++ env.vertexLog)
         ∈ (mainRun env fuel).1) ∧
    (env.fragmentCompileOk = false →
       GLCall.glGetShaderInfoLog fragmentShaderId 512 ∈ (mainRun env fuel).1 ∧
       GLCall.coutLine ("ERROR::SHADER::FRAGMENT::COMPILATION_FAILED\n" ++ env.fragmentLog)
         ∈ (mainRun env fuel).1) ∧
    (env.linkOk = false →
       GLCall.glGetProgramInfoLog shaderProgramId 512 ∈ (mainRun env fuel).1 ∧
       GLCall.coutLine ("ERROR::SHADER::PROGRAM::LINKING_FAILED\n" ++ env.linkLog)
         ∈ (mainRun env fuel).1) ∧
    (mainRun env fuel).2 =
      (if (renderLoop env.escKey env.externalClose fuel 0 false).1 then some 0
       else none) ∧
    (mainRun env fuel).1.filter (fun e => !(isDiagCall e)) =
      contextPhase ++ loadPhase ++ strippedShaderCalls ++ bufferPhase
        ++ (renderLoop env.escKey env.externalClose fuel 0 false).2
        ++ (if (renderLoop env.escKey env.externalClose fuel 0 false).1 then
              teardownPhase else []) ∧
    ((renderLoop env.escKey env.externalClose fuel 0 false).1 = true →
       GLCall.glUseProgram shaderProgramId ∈ (mainRun env fuel).1) := by
  have hp := mainRun_eq_phases env fuel hw hg
  have hloopdiag : (renderLoop env.escKey env.externalClose fuel 0 false).2.filter
      (fun e => !(isDiagCall e)) = (renderLoop env.escKey env.externalClose fuel 0 false).2 := by
    rw [List.filter_eq_self]
    intro e he
    rw [loopCall_not_diag e (renderLoop_calls env.escKey env.externalClose fuel 0 false e he)]
    rfl
  refine ⟨?_, ?_, ?_, ?_, ?_, ?_⟩
  · intro hv; rw [hp]; constructor <;> simp [shaderPhase, hv]
  · intro hf; rw [hp]; constructor <;> simp [shaderPhase, hf]
  · intro hl; rw [hp]; constructor <;> simp [shaderPhase, hl]
  · rw [hp]
  · rw [hp]
    simp only [List.filter_append, hloopdiag, shaderPhase_strip]
    have h1 : contextPhase.filter (fun e => !(isDiagCall e)) = contextPhase := rfl
    have h2 : loadPhase.filter (fun e => !(isDiagCall e)) = loadPhase := rfl
    have h3 : bufferPhase.filter (fun e => !(isDiagCall e)) = bufferPhase := rfl
    rw [h1, h2, h3]
    cases hfin : (renderLoop env.escKey env.externalClose fuel 0 false).1 <;> simp [hfin]
    decide
  · intro hfin
    have hu : GLCall.glUseProgram shaderProgramId ∈ loopDrawCalls := by
      simp [loopDrawCalls]
    have := renderLoop_fin_body env.escKey env.externalClose fuel 0 hfin _ hu
    rw [hp]
    simp only [List.mem_append]
    exact Or.inl (Or.inr this)

/-- Oracle for the C2 witness: everything external succeeds except that both
shader compilations and the link are reported failed; the escape key is
pressed from the start. -/
def envShaderFail : Env :=
  { envPressEsc with
    vertexCompileOk := false
    fragmentCompileOk := false
    linkOk := false
    vertexLog := "v"
    fragmentLog := "f"
    linkLog := "l" }

/-- Witness for C2: a run with all three failures logs the three
diagnostics, still terminates through the render loop, and exits 0. -/
theorem C2_shader_failure_logged_witness :
    (envShaderFail.vertexCompileOk = false →
       GLCall.glGetShaderInfoLog vertexShaderId 512 ∈ (mainRun envShaderFail 3).1 ∧
       GLCall.coutLine ("ERROR::SHADER::VERTEX::COMPILATION_FAILED\n" ++ envShaderFail.vertexLog)
         ∈ (mainRun envShaderFail 3).1) ∧
    (envShaderFail.fragmentCompileOk = false →
       GLCall.glGetShaderInfoLog fragmentShaderId 512 ∈ (mainRun envShaderFail 3).1 ∧
       GLCall.coutLine ("ERROR::SHADER::FRAGMENT::COMPILATION_FAILED\n" ++ envShaderFail.fragmentLog)
         ∈ (mainRun envShaderFail 3).1) ∧
    (envShaderFail.linkOk = false →
       GLCall.glGetProgramInfoLog shaderProgramId 512 ∈ (mainRun envShaderFail 3).1 ∧
       GLCall.coutLine ("ERROR::SHADER::PROGRAM::LINKING_FAILED\n" ++ envShaderFail.linkLog)
         ∈ (mainRun envShaderFail 3).1) ∧
    (mainRun envShaderFail 3).2 =
      (if (renderLoop envShaderFail.escKey envShaderFail.externalClose 3 0 false).1 then
         some 0 else none) ∧
    (mainRun envShaderFail 3).1.filter (fun e => !(isDiagCall e)) =
      contextPhase ++ loadPhase ++ strippedShaderCalls ++ bufferPhase
        ++ (renderLoop envShaderFail.escKey envShaderFail.externalClose 3 0 false).2
        ++ (if (renderLoop envShaderFail.escKey envShaderFail.externalClose 3 0 false).1 then
              teardownPhase else []) ∧
    ((renderLoop envShaderFail.escKey envShaderFail.externalClose 3 0 false).1 = true →
       GLCall.glUseProgram shaderProgramId ∈ (mainRun envShaderFail 3).1) :=
  C2_shader_failure_logged envShaderFail 3 rfl rfl

/-- A loop call never creates a long-lived GPU entity. -/
lemma loopCall_not_entityGen (e : GLCall) (h : isLoopCall e = true) :
    isEntityGen e = false := by
  cases e <;> first | rfl | simp [isLoopCall] at h

/-- A loop call never deletes a long-lived GPU entity. -/
lemma loopCall_not_entityDelete (e : GLCall) (h : isLoopCall e = true) :
    isEntityDelete e = false := by
  cases e <;> first | rfl | simp [isLoopCall] at h

/-- A loop call never uploads buffer data. -/
lemma loopCall_not_bufferUpload (e : GLCall) (h : isLoopCall e = true) :
    isBufferUpload e = false := by
  cases e <;> first | rfl | simp [isLoopCall] at h

/-- A loop call never deletes a shader stage. -/
lemma loopCall_not_shaderDelete (e : GLCall) (h : isLoopCall e = true) :
    isShaderDelete e = false := by
  cases e <;> first | rfl | simp [isLoopCall] at h

/-- A loop call never declares a vertex-attribute pointer. -/
lemma loopCall_not_attribPointer (e : GLCall) (h : isLoopCall e = true) :
    isAttribPointer e = false := by
  cases e <;> first | rfl | simp [isLoopCall] at h

/-- The shader phase up to and including the link-status handling: the
shader phase is this prefix followed by the deletion of the two stages. -/
def shaderPhaseFront (env : Env) : List GLCall :=
  [GLCall.glCreateShader GL_VERTEX_SHADER,
   GLCall.glShaderSource vertexShaderId vertexShaderSource,
   GLCall.glCompileShader vertexShaderId,
   GLCall.glGetShaderiv vertexShaderId GL_COMPILE_STATUS]
  ++ (if env.vertexCompileOk = false then
        [GLCall.glGetShaderInfoLog vertexShaderId 512,
         GLCall.coutLine ("ERROR::SHADER::VERTEX::COMPILATION_FAILED\n" ++ env.vertexLog)]
      else [])
  ++ [GLCall.glCreateShader GL_FRAGMENT_SHADER,
      GLCall.glShaderSource fragmentShaderId fragmentShaderSource,
      GLCall.glCompileShader fragmentShaderId,
      GLCall.glGetShaderiv fragmentShaderId GL_COMPILE_STATUS]
  ++ (if env.fragmentCompileOk = false then
        [GLCall.glGetShaderInfoLog fragmentShaderId 512,
         GLCall.coutLine ("ERROR::SHADER::FRAGMENT::COMPILATION_FAILED\n" ++ env.fragmentLog)]
      else [])
  ++ [GLCall.glCreateProgram,
      GLCall.glAttachShader shaderProgramId vertexShaderId,
      GLCall.glAttachShader shaderProgramId fragmentShaderId,
      GLCall.glLinkProgram shaderProgramId,
      GLCall.glGetProgramiv shaderProgramId GL_LINK_STATUS]
  ++ (if env.linkOk = false then
        [GLCall.glGetProgramInfoLog shaderProgramId 512,
         GLCall.coutLine ("ERROR::SHADER::PROGRAM::LINKING_FAILED\n" ++ env.linkLog)]
      else [])

/-- The shader phase ends with the deletion of the two compiled stages. -/
lemma shaderPhase_eq_front (env : Env) :
    shaderPhase env = shaderPhaseFront env ++
      [GLCall.glDeleteShader vertexShaderId, GLCall.glDeleteShader fragmentShaderId] := by
  simp [shaderPhase, shaderPhaseFront]

/-- The link call lies in the prefix, before the stage deletions. -/
lemma linkProgram_mem_shaderPhaseFront (env : Env) :
    GLCall.glLinkProgram shaderProgramId ∈ shaderPhaseFront env := by
  cases hv : env.vertexCompileOk <;> cases hf : env.fragmentCompileOk <;>
    cases hl : env.linkOk <;> simp [shaderPhaseFront, hv, hf, hl]

/-- Whatever the status flags, the shader phase creates exactly the program
among the long-lived entities. -/
lemma shaderPhase_entityGen (env : Env) :
    (shaderPhase env).filter isEntityGen = [GLCall.glCreateProgram] := by
  cases hv : env.vertexCompileOk <;> cases hf : env.fragmentCompileOk <;>
    cases hl : env.linkOk <;> simp [shaderPhase, hv, hf, hl, isEntityGen]

/-- The shader phase deletes no long-lived entity. -/
lemma shaderPhase_entityDelete (env : Env) :
    (shaderPhase env).filter isEntityDelete = [] := by
  cases hv : env.vertexCompileOk <;> cases hf : env.fragmentCompileOk <;>
    cases hl : env.linkOk <;> simp [shaderPhase, hv, hf, hl, isEntityDelete]

/-- The shader phase uploads no buffer data. -/
lemma shaderPhase_bufferUpload (env : Env) :
    (shaderPhase env).filter isBufferUpload = [] := by
  cases hv : env.vertexCompileOk <;> cases hf : env.fragmentCompileOk <;>
    cases hl : env.linkOk <;> simp [shaderPhase, hv, hf, hl, isBufferUpload]

/-- The shader phase declares no vertex-attribute pointer. -/
lemma shaderPhase_attribPointer (env : Env) :
    (shaderPhase env).filter isAttribPointer = [] := by
  cases hv : env.vertexCompileOk <;> cases hf : env.fragmentCompileOk <;>
    cases hl : env.linkOk <;> simp [shaderPhase, hv, hf, hl, isAttribPointer]

/-- The prefix of the shader phase deletes no shader stage. -/
lemma shaderPhaseFront_shaderDelete (env : Env) :
    (shaderPhaseFront env).filter isShaderDelete = [] := by
  cases hv : env.vertexCompileOk <;> cases hf : env.fragmentCompileOk <;>
    cases hl : env.linkOk <;> simp [shaderPhaseFront, hv, hf, hl, isShaderDelete]

/-- The shader phase contains no draw call. -/
lemma shaderPhase_no_draw (env : Env) (m f c : Nat) :
    GLCall.glDrawArrays m f c ∉ shaderPhase env := by
  intro h
  cases hv : env.vertexCompileOk <;> cases hf : env.fragmentCompileOk <;>
    cases hl : env.linkOk <;> simp [shaderPhase, hv, hf, hl] at h

/-- C5: on a normal run every long-lived GPU entity (the shader program, the
two VAOs, the two VBOs) is created during startup before the render loop and
deleted in teardown after the loop; the loop neither creates nor deletes;
and the two compiled shader stages are deleted at the very end of the shader
phase — after the link, before any vertex-buffer setup (no stage deletion
occurs earlier, in `bufferPhase`, or in the loop). -/
theorem C5_entity_lifetimes (env : Env) (fuel : Nat)
    (hw : env.windowOk = true) (hg : env.gladOk = true)
    (hfin : (renderLoop env.escKey env.externalClose fuel 0 false).1 = true) :
    (mainRun env fuel).1 =
      contextPhase ++ loadPhase ++ shaderPhase env ++ bufferPhase
        ++ (renderLoop env.escKey env.externalClose fuel 0 false).2 ++ teardownPhase ∧
    (contextPhase ++ loadPhase ++ shaderPhase env ++ bufferPhase).filter isEntityGen =
      [GLCall.glCreateProgram, GLCall.glGenVertexArrays VAO_1,
       GLCall.glGenVertexArrays VAO_2, GLCall.glGenBuffers VBO_1,
       GLCall.glGenBuffers VBO_2] ∧
    (contextPhase ++ loadPhase ++ shaderPhase env ++ bufferPhase).filter isEntityDelete
      = [] ∧
    (renderLoop env.escKey env.externalClose fuel 0 false).2.filter isEntityGen = [] ∧
    (renderLoop env.escKey env.externalClose fuel 0 false).2.filter isEntityDelete = [] ∧
    teardownPhase.filter isEntityDelete =
      [GLCall.glDeleteVertexArrays VAO_1, GLCall.glDeleteBuffers VBO_1,
       GLCall.glDeleteVertexArrays VAO_2, GLCall.glDeleteBuffers VBO_2,
       GLCall.glDeleteProgram shaderProgramId] ∧
    teardownPhase.filter isEntityGen = [] ∧
    shaderPhase env = shaderPhaseFront env ++
      [GLCall.glDeleteShader vertexShaderId, GLCall.glDeleteShader fragmentShaderId] ∧
    GLCall.glLinkProgram shaderProgramId ∈ shaderPhaseFront env ∧
    (shaderPhaseFront env).filter isShaderDelete = [] ∧
    bufferPhase.filter isShaderDelete = [] ∧
    (renderLoop env.escKey env.externalClose fuel 0 false).2.filter isShaderDelete = []
    := by
  refine ⟨?_, ?_, ?_,
    renderLoop_filter_nil env.escKey env.externalClose fuel 0 false isEntityGen
      loopCall_not_entityGen,
    renderLoop_filter_nil env.escKey env.externalClose fuel 0 false isEntityDelete
      loopCall_not_entityDelete,
    rfl, rfl, shaderPhase_eq_front env, linkProgram_mem_shaderPhaseFront env,
    shaderPhaseFront_shaderDelete env, rfl,
    renderLoop_filter_nil env.escKey env.externalClose fuel 0 false isShaderDelete
      loopCall_not_shaderDelete⟩
  · rw [mainRun_eq_phases env fuel hw hg]
    simp [hfin]
  · simp only [List.filter_append, shaderPhase_entityGen]
    rfl
  · simp only [List.filter_append, shaderPhase_entityDelete]
    rfl

/-- Witness for C5 at a concrete terminating run. -/
theorem C5_entity_lifetimes_witness :
    (mainRun envPressEsc 3).1 =
      contextPhase ++ loadPhase ++ shaderPhase envPressEsc ++ bufferPhase
        ++ (renderLoop envPressEsc.escKey envPressEsc.externalClose 3 0 false).2
        ++ teardownPhase ∧
    (contextPhase ++ loadPhase ++ shaderPhase envPressEsc ++ bufferPhase).filter
      isEntityGen =
      [GLCall.glCreateProgram, GLCall.glGenVertexArrays VAO_1,
       GLCall.glGenVertexArrays VAO_2, GLCall.glGenBuffers VBO_1,
       GLCall.glGenBuffers VBO_2] ∧
    (contextPhase ++ loadPhase ++ shaderPhase envPressEsc ++ bufferPhase).filter
      isEntityDelete = [] ∧
    (renderLoop envPressEsc.escKey envPressEsc.externalClose 3 0 false).2.filter
      isEntityGen = [] ∧
    (renderLoop envPressEsc.escKey envPressEsc.externalClose 3 0 false).2.filter
      isEntityDelete = [] ∧
    teardownPhase.filter isEntityDelete =
      [GLCall.glDeleteVertexArrays VAO_1, GLCall.glDeleteBuffers VBO_1,
       GLCall.glDeleteVertexArrays VAO_2, GLCall.glDeleteBuffers VBO_2,
       GLCall.glDeleteProgram shaderProgramId] ∧
    teardownPhase.filter isEntityGen = [] ∧
    shaderPhase envPressEsc = shaderPhaseFront envPressEsc ++
      [GLCall.glDeleteShader vertexShaderId, GLCall.glDeleteShader fragmentShaderId] ∧
    GLCall.glLinkProgram shaderProgramId ∈ shaderPhaseFront envPressEsc ∧
    (shaderPhaseFront envPressEsc).filter isShaderDelete = [] ∧
    bufferPhase.filter isShaderDelete = [] ∧
    (renderLoop envPressEsc.escKey envPressEsc.externalClose 3 0 false).2.filter
      isShaderDelete = [] :=
  C5_entity_lifetimes envPressEsc 3 rfl rfl (by decide)

/-- C6: each of the two vertex buffers receives exactly one data upload — a
single `glBufferData` with `GL_STATIC_DRAW` into `VBO_1` and one into
`VBO_2`, both during startup — and the render loop performs no upload at
all, so buffer contents are never modified after startup. -/
theorem C6_upload_once (env : Env) (fuel : Nat)
    (hw : env.windowOk = true) (hg : env.gladOk = true) :
    (mainRun env fuel).1.filter isBufferUpload =
      [GLCall.glBufferData GL_ARRAY_BUFFER (sizeofArray vertices_1) GL_STATIC_DRAW VBO_1,
       GLCall.glBufferData GL_ARRAY_BUFFER (sizeofArray vertices_2) GL_STATIC_DRAW VBO_2] ∧
    (renderLoop env.escKey env.externalClose fuel 0 false).2.filter isBufferUpload = []
    := by
  have hloop := renderLoop_filter_nil env.escKey env.externalClose fuel 0 false
    isBufferUpload loopCall_not_bufferUpload
  refine ⟨?_, hloop⟩
  rw [mainRun_eq_phases env fuel hw hg]
  simp only [List.filter_append, shaderPhase_bufferUpload, hloop]
  cases hfin : (renderLoop env.escKey env.externalClose fuel 0 false).1 <;>
    simp [hfin] <;> rfl

/-- Witness for C6 at a concrete terminating run. -/
theorem C6_upload_once_witness :
    (mainRun envPressEsc 3).1.filter isBufferUpload =
      [GLCall.glBufferData GL_ARRAY_BUFFER (sizeofArray vertices_1) GL_STATIC_DRAW VBO_1,
       GLCall.glBufferData GL_ARRAY_BUFFER (sizeofArray vertices_2) GL_STATIC_DRAW VBO_2] ∧
    (renderLoop envPressEsc.escKey envPressEsc.externalClose 3 0 false).2.filter
      isBufferUpload = [] :=
  C6_upload_once envPressEsc 3 rfl rfl

/-- C7: the attribute layout matches the uploaded byte layout.  Each of the
two uploaded arrays holds 3 vertices of 3 float components (9 floats); the
two attribute declarations (one per VAO) are at location 0 with 3 `GL_FLOAT`
components, stride `3 * sizeof(float)` and offset 0; the declared stride
times the vertex count drawn (every draw call of the run draws exactly 3
vertices) equals the uploaded byte size of each buffer. -/
theorem C7_layout_match (env : Env) (fuel : Nat)
    (hw : env.windowOk = true) (hg : env.gladOk = true) :
    vertices_1.length = 3 * 3 ∧ vertices_2.length = 3 * 3 ∧
    (mainRun env fuel).1.filter isAttribPointer =
      [GLCall.glVertexAttribPointer 0 3 GL_FLOAT false (3 * sizeofFloat) 0,
       GLCall.glVertexAttribPointer 0 3 GL_FLOAT false (3 * sizeofFloat) 0] ∧
    (mainRun env fuel).1.filter isBufferUpload =
      [GLCall.glBufferData GL_ARRAY_BUFFER (sizeofArray vertices_1) GL_STATIC_DRAW VBO_1,
       GLCall.glBufferData GL_ARRAY_BUFFER (sizeofArray vertices_2) GL_STATIC_DRAW VBO_2] ∧
    (3 * sizeofFloat) * 3 = sizeofArray vertices_1 ∧
    (3 * sizeofFloat) * 3 = sizeofArray vertices_2 ∧
    (∀ m f c, GLCall.glDrawArrays m f c ∈ (mainRun env fuel).1 → c = 3) := by
  have hp := mainRun_eq_phases env fuel hw hg
  have hloopA := renderLoop_filter_nil env.escKey env.externalClose fuel 0 false
    isAttribPointer loopCall_not_attribPointer
  have hloopB := renderLoop_filter_nil env.escKey env.externalClose fuel 0 false
    isBufferUpload loopCall_not_bufferUpload
  refine ⟨rfl, rfl, ?_, ?_, rfl, rfl, ?_⟩
  · rw [hp]
    simp only [List.filter_append, shaderPhase_attribPointer, hloopA]
    cases hfin : (renderLoop env.escKey env.externalClose fuel 0 false).1 <;>
      simp [hfin] <;> rfl
  · rw [hp]
    simp only [List.filter_append, shaderPhase_bufferUpload, hloopB]
    cases hfin : (renderLoop env.escKey env.externalClose fuel 0 false).1 <;>
      simp [hfin] <;> rfl
  · intro m f c hmem
    rw [hp] at hmem
    simp only [List.mem_append] at hmem
    rcases hmem with ((((h | h) | h) | h) | h) | h
    · simp [contextPhase] at h
    · simp [loadPhase] at h
    · exact absurd h (shaderPhase_no_draw env m f c)
    · simp [bufferPhase] at h
    · have := renderLoop_calls env.escKey env.externalClose fuel 0 false _ h
      simp [isLoopCall] at this
      exact this.2
    · cases hfin : (renderLoop env.escKey env.externalClose fuel 0 false).1 <;>
        rw [hfin] at h <;> simp [teardownPhase] at h

/-- Witness for C7 at a concrete terminating run. -/
theorem C7_layout_match_witness :
    vertices_1.length = 3 * 3 ∧ vertices_2.length = 3 * 3 ∧
    (mainRun envPressEsc 3).1.filter isAttribPointer =
      [GLCall.glVertexAttribPointer 0 3 GL_FLOAT false (3 * sizeofFloat) 0,
       GLCall.glVertexAttribPointer 0 3 GL_FLOAT false (3 * sizeofFloat) 0] ∧
    (mainRun envPressEsc 3).1.filter isBufferUpload =
      [GLCall.glBufferData GL_ARRAY_BUFFER (sizeofArray vertices_1) GL_STATIC_DRAW VBO_1,
       GLCall.glBufferData GL_ARRAY_BUFFER (sizeofArray vertices_2) GL_STATIC_DRAW VBO_2] ∧
    (3 * sizeofFloat) * 3 = sizeofArray vertices_1 ∧
    (3 * sizeofFloat) * 3 = sizeofArray vertices_2 ∧
    (∀ m f c, GLCall.glDrawArrays m f c ∈ (mainRun envPressEsc 3).1 → c = 3) :=
  C7_layout_match envPressEsc 3 rfl rfl
